import Mathlib

/-!
Shallow embedding of `src/main.py` of the ConfirmationBot repository.

The script is a linear batch pipeline: load a JSON config, open an HTTP
session against a base host, authenticate, upload a confirmation
spreadsheet, trigger remote processing, and report the outcome through a
Telegram notifier.

Modelling conventions:
* JSON values are the inductive `Json`; machine-level JSON parsing is not
  re-implemented: an HTTP response carries both its raw body text and the
  optional `Json` value that `json.loads` would produce (`none` when the
  body is not valid JSON).  Likewise the config file is modelled by the
  outcome of `open` + `json.load` (`Except String Json`).
* Python dictionary/sequence semantics (`d.get`, `d[k]`, `k in d`,
  truthiness, `str(...)`) are embedded as total Lean functions returning
  `Except String _` where the Python operation can raise; the carried
  strings model `str(e)` of the raised exception.
* Every function of the script becomes a Lean function threading a
  `Trace`: the list of HTTP requests attempted (session requests to the
  remote host and POSTs of the notifier) and the list of notification
  texts passed to `send_telegram_message`.
* The outside world (filesystem, remote server, Telegram) is a `World`
  record; `World.http` maps each request to the response the server gives.
* Exception texts produced by the Python runtime (KeyError, TypeError,
  MissingSchema, JSONDecodeError, raise_for_status) are modelled by fixed
  strings; their exact wording is irrelevant to the properties proved.
-/

/-- JSON values, as produced by Python's `json.load`/`response.json()`.
Numbers are modelled as integers (the script never manipulates numeric
response fields beyond `str(...)` conversion). -/
inductive Json where
  | null
  | bool (b : Bool)
  | num (n : Int)
  | str (s : String)
  | arr (xs : List Json)
  | obj (fields : List (String × Json))

/-- Python truthiness of a JSON value (`if not config`, `if not file_name`,
`if response.json().get("errors")`). -/
def Json.truthy : Json → Bool
  | .null => false
  | .bool b => b
  | .num n => n != 0
  | .str s => s != ""
  | .arr xs => !xs.isEmpty
  | .obj fs => !fs.isEmpty

/-- Association-list lookup backing Python dict access. -/
def jlookup : List (String × Json) → String → Option Json
  | [], _ => none
  | (k, v) :: rest, key => if k = key then some v else jlookup rest key

/-- A single quote character, used by Python `repr` of strings. -/
def squote : String := String.singleton (Char.ofNat 39)

mutual
/-- Python `repr` of a JSON value (string escaping inside `repr` of a
string is not modelled; the values reaching `repr` in the proofs contain
no quotes or backslashes). -/
def pyRepr : Json → String
  | .null => "None"
  | .bool true => "True"
  | .bool false => "False"
  | .num n => toString n
  | .str s => squote ++ s ++ squote
  | .arr xs => "[" ++ pyReprList xs ++ "]"
  | .obj fs => "\x7b" ++ pyReprFields fs ++ "\x7d"
/-- Comma-separated `repr` of list elements. -/
def pyReprList : List Json → String
  | [] => ""
  | [x] => pyRepr x
  | x :: xs => pyRepr x ++ ", " ++ pyReprList xs
/-- Comma-separated `repr` of dict entries. -/
def pyReprFields : List (String × Json) → String
  | [] => ""
  | [(k, v)] => squote ++ k ++ squote ++ ": " ++ pyRepr v
  | (k, v) :: fs => squote ++ k ++ squote ++ ": " ++ pyRepr v ++ ", " ++ pyReprFields fs
end

/-- Python `str(...)` of a JSON value, as interpolated into f-strings:
`str(None) = "None"`, `str(0) = "0"`, strings unchanged, containers via
`repr`. -/
def pyStr : Json → String
  | .str s => s
  | .null => "None"
  | .bool true => "True"
  | .bool false => "False"
  | .num n => toString n
  | .arr xs => pyRepr (.arr xs)
  | .obj fs => pyRepr (.obj fs)

mutual
/-- Python `==` on JSON values (structural; the numeric `True == 1`
coercion is not modelled, no claim exercises it). -/
def jsonEq : Json → Json → Bool
  | .null, .null => true
  | .bool a, .bool b => a == b
  | .num a, .num b => a == b
  | .str a, .str b => a == b
  | .arr a, .arr b => jsonEqList a b
  | .obj a, .obj b => jsonEqFields a b
  | _, _ => false
/-- Elementwise equality of JSON lists. -/
def jsonEqList : List Json → List Json → Bool
  | [], [] => true
  | a :: as_, b :: bs => jsonEq a b && jsonEqList as_ bs
  | _, _ => false
/-- Entrywise equality of JSON object fields. -/
def jsonEqFields : List (String × Json) → List (String × Json) → Bool
  | [], [] => true
  | (ka, va) :: as_, (kb, vb) :: bs => ka == kb && jsonEq va vb && jsonEqFields as_ bs
  | _, _ => false
end

/-- Modelled text of `str(e)` for a Python `KeyError k` (Python renders it
as the repr of the missing key). -/
def keyErrorText (k : String) : String := squote ++ k ++ squote

/-- Modelled text of the `TypeError` raised by `os.path.join(None, ...)`
when `BASE_URL` is unset. -/
def typeErrorJoinText : String :=
  "expected str, bytes or os.PathLike object, not NoneType"

/-- Modelled text of the `AttributeError` raised by calling `.get` on a
non-dict value. -/
def attrErrorGetText : String := "object has no attribute get"

/-- Modelled text of the `TypeError` raised by subscripting a non-dict
value with a string key. -/
def typeErrorSubscriptText : String := "value is not subscriptable with str"

/-- Modelled text of the `TypeError` raised by `k in v` on a value that is
neither dict, string nor list. -/
def typeErrorContainsText : String := "argument of type is not iterable"

/-- Modelled text of `json.JSONDecodeError` raised by `response.json()` on
a non-JSON body. -/
def jsonDecodeErrorText : String := "Expecting value: line 1 column 1 (char 0)"

/-- Modelled text of `requests.exceptions.MissingSchema` raised by
`session.get(None)` when `BASE_URL` is unset (raised before any network
input/output happens). -/
def missingSchemaText : String := "Invalid URL None: No scheme supplied."

/-- Modelled text of the `requests.HTTPError` raised by
`raise_for_status()` on a status `>= 400`. -/
def httpErrorText (status : Nat) (url : String) : String :=
  toString status ++ " Error for url: " ++ url

/-- Python `d.get(k)` with default `None`: raises `AttributeError` unless
`d` is a dict, else returns the stored value or `None`. -/
def Json.pyGet : Json → String → Except String Json
  | .obj fs, k => .ok ((jlookup fs k).getD .null)
  | _, _ => .error attrErrorGetText

/-- Python `d.get(k, default)`: raises `AttributeError` unless `d` is a
dict, else returns the stored value or the default. -/
def Json.pyGetD : Json → String → Json → Except String Json
  | .obj fs, k, d => .ok ((jlookup fs k).getD d)
  | _, _, _ => .error attrErrorGetText

/-- Python `d[k]` with a string key: `KeyError` when a dict lacks the key,
`TypeError` on non-dict values. -/
def Json.pySubscript : Json → String → Except String Json
  | .obj fs, k =>
      match jlookup fs k with
      | some v => .ok v
      | none => .error (keyErrorText k)
  | _, _ => .error typeErrorSubscriptText

/-- Python `key in v` for a string key: key membership on dicts, substring
test on strings, element membership on lists, `TypeError` otherwise. -/
def Json.pyContains : Json → String → Except String Bool
  | .obj fs, k => .ok ((jlookup fs k).isSome)
  | .str s, k => .ok (decide ((s.splitOn k).length ≥ 2))
  | .arr xs, k => .ok (xs.any (fun x => jsonEq x (.str k)))
  | _, _ => .error typeErrorContainsText

/-- `List.isPrefixOf`-based `String.startsWith` (the library version does
not reduce in the kernel). -/
def strStartsWith (s pre : String) : Bool := pre.data.isPrefixOf s.data

/-- `List.isSuffixOf`-based `String.endsWith`. -/
def strEndsWith (s suf : String) : Bool := suf.data.isSuffixOf s.data

/-- `posixpath.join` restricted to two components, as used by
`os.path.join(os.getenv("BASE_URL"), endpoint)` in the script. -/
def ospath_join (a b : String) : String :=
  if strStartsWith b ("/") then b
  else if a = "" || strEndsWith a ("/") then a ++ b
  else a ++ "/" ++ b

/-- Text after the last slash, one step of `basenameAux`. -/
def basenameAux : List Char → List Char → List Char
  | [], cur => cur.reverse
  | c :: rest, cur =>
      if c = Char.ofNat 47 then basenameAux rest [] else basenameAux rest (c :: cur)

/-- `os.path.basename` on POSIX: the part of the path after the last
slash. -/
def basename (p : String) : String := String.mk (basenameAux p.data [])

/-- The failure notification text
`f"❌ Ошибка подтверждения\n📎<b>Ошибка:</b><i>{e}</i>"`. -/
def failMsg (e : String) : String :=
  "❌ Ошибка подтверждения\n📎<b>Ошибка:</b><i>" ++ e ++ "</i>"

/-- The success notification text
`f"✅ Подтверждение отправлено\n📎<b>Файл:</b><i>{fname}</i>"`. -/
def okMsg (fname : String) : String :=
  "✅ Подтверждение отправлено\n📎<b>Файл:</b><i>" ++ fname ++ "</i>"

/-- The environment variables read by the script via `os.getenv`. -/
structure Env where
  BASE_URL : Option String
  LOGIN : Option String
  PASSWORD : Option String
  BOT_TOKEN : Option String
  BOT_CHAT_ID : Option String
  BOT_THREAD_ID : Option String

/-- Whether an HTTP request is issued through the pipeline's
`requests.Session` (towards the remote host) or by the notifier
(`requests.post` towards Telegram). -/
inductive ReqKind where
  | session
  | notifier
deriving DecidableEq

/-- An attempted HTTP request: method, URL and issuing component.  The
form/multipart payloads are not modelled: no observable behaviour of the
script depends on them. -/
structure Request where
  method : String
  url : String
  kind : ReqKind
deriving DecidableEq

/-- Outcome of one attempted HTTP request: a transport-level exception
(connection/DNS/TLS error, carrying `str(e)`), or a response with HTTP
status, raw body text, and the JSON value the body parses to (`none` when
`response.json()` would raise). -/
inductive HttpResult where
  | netErr (msg : String)
  | resp (status : Nat) (text : String) (parsed : Option Json)

/-- The external world of one run: the outcome of reading and parsing
`config.json`, the outcome of `open(file_path, "rb")` per path value, and
the server's answer to each HTTP request. -/
structure World where
  configFile : Except String Json
  openFile : Json → Except String Unit
  http : Request → HttpResult

/-- Observable effects accumulated by a run: HTTP requests attempted, and
texts passed to `send_telegram_message`. -/
structure Trace where
  requests : List Request
  notifications : List String
deriving DecidableEq

/-- The empty trace at the start of a run. -/
def Trace.empty : Trace := ⟨[], []⟩

/-- Result of a Python call as seen by its caller: a returned value, or an
exception that propagated uncaught out of the function. -/
inductive PyResult (α : Type) where
  | ok (a : α)
  | raised (e : String)
deriving DecidableEq

/-- `str(...)` of an environment value in an f-string (`None` when the
variable is unset). -/
def pyStrOpt : Option String → String
  | none => "None"
  | some s => s

/-- The notifier URL `f"https://api.telegram.org/bot{token}/sendMessage"`. -/
def telegramUrl (env : Env) : String :=
  "https://api.telegram.org/bot" ++ pyStrOpt env.BOT_TOKEN ++ "/sendMessage"

/-- `send_telegram_message` (src/main.py lines 22-42): posts the text to
the Telegram API and swallows every error (`raise_for_status` failures are
only logged).  Observable effect: one notifier request attempt and one
recorded notification text. -/
def send_telegram_message (env : Env) (st : Trace) (text : String) : Trace :=
  { requests := st.requests ++ [⟨"POST", telegramUrl env, .notifier⟩],
    notifications := st.notifications ++ [text] }

/-- `get_config` (src/main.py lines 46-62): `open` + `json.load` on the
config file; any exception is caught, one failure notification is sent and
`None` is returned. -/
def get_config (env : Env) (w : World) (st : Trace) : Option Json × Trace :=
  match w.configFile with
  | .ok config => (some config, st)
  | .error e => (none, send_telegram_message env st (failMsg e))

/-- `init_session` (src/main.py lines 66-82): creates a session and
performs `session.get(os.getenv("BASE_URL"))`.  Any exception is caught
(one failure notification, return `None`).  Note: the probe's HTTP status
is never checked — there is no `raise_for_status` here — so any response,
success or error status, yields a session.  The `config` parameter is
accepted but never used. -/
def init_session (config : Json) (env : Env) (w : World) (st : Trace) :
    Option Unit × Trace :=
  match env.BASE_URL with
  | none =>
      (none, send_telegram_message env st (failMsg missingSchemaText))
  | some base =>
      let req : Request := ⟨"GET", base, .session⟩
      let st := { st with requests := st.requests ++ [req] }
      match w.http req with
      | .netErr e => (none, send_telegram_message env st (failMsg e))
      | .resp _ _ _ => (some (), st)

/-- `authorize` (src/main.py lines 86-111): POSTs the credentials to
`auth-ajax_login`, raises for non-2xx status, then treats a truthy
`errors` field of the JSON body as a rejection.  Every exception (missing
`BASE_URL`, transport error, HTTP error status, non-JSON body, non-dict
body) is caught inside the function: one failure notification, return
`False`. -/
def authorize (env : Env) (w : World) (st : Trace) : Bool × Trace :=
  match env.BASE_URL with
  | none =>
      (false, send_telegram_message env st (failMsg typeErrorJoinText))
  | some base =>
      let req : Request := ⟨"POST", ospath_join base ("auth-ajax_login"), .session⟩
      let st := { st with requests := st.requests ++ [req] }
      match w.http req with
      | .netErr e => (false, send_telegram_message env st (failMsg e))
      | .resp status _text parsed =>
          if 400 ≤ status then
            (false, send_telegram_message env st (failMsg (httpErrorText status req.url)))
          else
            match parsed with
            | none => (false, send_telegram_message env st (failMsg jsonDecodeErrorText))
            | some j =>
                match j.pyGet ("errors") with
                | .error e => (false, send_telegram_message env st (failMsg e))
                | .ok errs =>
                    if errs.truthy then
                      (false, send_telegram_message env st (failMsg (pyStr errs)))
                    else (true, st)

/-- The nested extraction `upload_data["data"]["file_name"]` of
`upload_file`. -/
def upload_token (j : Json) : Except String Json :=
  match j.pySubscript ("data") with
  | .error e => .error e
  | .ok d => d.pySubscript ("file_name")

/-- `upload_file` (src/main.py lines 115-139): the upload URL is built
from `os.getenv("BASE_URL")` BEFORE the `try` block, so a missing
`BASE_URL` raises an uncaught `TypeError`.  Inside the `try`: open the
file, POST it, raise for status, parse the JSON body and return
`upload_data["data"]["file_name"]` — whatever JSON value that is.  Every
exception inside the `try` is caught: one failure notification, return
`None`.  The `config` parameter is accepted but never used. -/
def upload_file (env : Env) (w : World) (st : Trace) (config : Json)
    (file_path : Json) : PyResult (Option Json) × Trace :=
  match env.BASE_URL with
  | none => (.raised typeErrorJoinText, st)
  | some base =>
      let url := ospath_join base ("supplier_answer-load_answer_file")
      match w.openFile file_path with
      | .error e => (.ok none, send_telegram_message env st (failMsg e))
      | .ok () =>
          let req : Request := ⟨"POST", url, .session⟩
          let st := { st with requests := st.requests ++ [req] }
          match w.http req with
          | .netErr e => (.ok none, send_telegram_message env st (failMsg e))
          | .resp status _text parsed =>
              if 400 ≤ status then
                (.ok none, send_telegram_message env st (failMsg (httpErrorText status url)))
              else
                match parsed with
                | none =>
                    (.ok none, send_telegram_message env st (failMsg jsonDecodeErrorText))
                | some j =>
                    match upload_token j with
                    | .error e => (.ok none, send_telegram_message env st (failMsg e))
                    | .ok v => (.ok (some v), st)

/-- The inner `try` of `process_file` (src/main.py lines 164-176): parse
the 2xx response body and classify it.  `status_code` converted by
`str(...)` and equal to `"0"` is success (notify with the basename of the
file path); any other parsed value is failure carrying `err_msg`, or the
whole parsed body when `err_msg` is absent; when `response.json()` — or
anything else inside this block, such as `.get` on a non-dict body or
`basename` of a non-string path — raises, the exception is caught and the
failure notification carries the raw response text. -/
def process_classify (env : Env) (st : Trace) (text : String) (parsed : Option Json)
    (file_path : Json) : Trace :=
  match parsed with
  | none => send_telegram_message env st (failMsg text)
  | some j =>
      match j.pyGet ("status_code") with
      | .error _ => send_telegram_message env st (failMsg text)
      | .ok sc =>
          if pyStr sc == "0" then
            match file_path with
            | .str p => send_telegram_message env st (okMsg (basename p))
            | _ => send_telegram_message env st (failMsg text)
          else
            match j.pyGetD ("err_msg") j with
            | .error _ => send_telegram_message env st (failMsg text)
            | .ok m => send_telegram_message env st (failMsg (pyStr m))

/-- `process_file` (src/main.py lines 143-180): the processing URL and the
`proc_data` form payload are built BEFORE the `try` block, so a missing
`BASE_URL` or a config lacking one of the three column-mapping keys raises
uncaught (`TypeError` / `KeyError`).  Inside the outer `try`: POST, raise
for status; the inner `try` parses the body and classifies it — a
`status_code` field `str(...)`-equal to `"0"` is success (notify with the
basename of the file path), anything else is failure carrying `err_msg`
(or the whole parsed body when `err_msg` is absent); when parsing — or
anything else inside the inner `try` — raises, the failure notification
carries the raw response text. -/
def process_file (env : Env) (w : World) (st : Trace) (config : Json)
    (file_name : Json) (file_path : Json) : PyResult Unit × Trace :=
  match env.BASE_URL with
  | none => (.raised typeErrorJoinText, st)
  | some base =>
      let proc_url := ospath_join base ("supplier_answer-proc_answer_file")
      match config.pySubscript ("order_id_col") with
      | .error e => (.raised e, st)
      | .ok _ =>
      match config.pySubscript ("quantity_col") with
      | .error e => (.raised e, st)
      | .ok _ =>
      match config.pySubscript ("order_product_id_col") with
      | .error e => (.raised e, st)
      | .ok _ =>
      let req : Request := ⟨"POST", proc_url, .session⟩
      let st := { st with requests := st.requests ++ [req] }
      match w.http req with
      | .netErr e => (.ok (), send_telegram_message env st (failMsg e))
      | .resp status text parsed =>
          if 400 ≤ status then
            (.ok (), send_telegram_message env st (failMsg (httpErrorText status proc_url)))
          else
            (.ok (), process_classify env st text parsed file_path)

/-- The tail of `main` after the confirmation file path has been resolved
(src/main.py lines 215-223): open the session, authorize, upload, and
process; each falsy stage result ends the run. -/
def main_after_path (env : Env) (w : World) (config : Json) (file_path : Json)
    (st : Trace) : PyResult Unit × Trace :=
  match init_session config env w st with
  | (none, st) => (.ok (), st)
  | (some _, st) =>
  match authorize env w st with
  | (false, st) => (.ok (), st)
  | (true, st) =>
  match upload_file env w st config file_path with
  | (.raised e, st) => (.raised e, st)
  | (.ok none, st) => (.ok (), st)
  | (.ok (some fname), st) =>
      if fname.truthy then
        process_file env w st config fname file_path
      else
        (.ok (), st)

/-- `main` (src/main.py lines 184-223): parse the optional CLI file-path
argument, load the config (`if not config: return` — note this also exits
silently when the config parses to a falsy value such as `{}`), resolve
the file path (CLI argument first, else `confirmation_file_path` from the
config, else one failure notification and exit), then run the remaining
stages. -/
def pymain (args_file_path : Option String) (env : Env) (w : World) :
    PyResult Unit × Trace :=
  let st := Trace.empty
  match get_config env w st with
  | (none, st) => (.ok (), st)
  | (some config, st) =>
  if config.truthy then
    match args_file_path with
    | some p => main_after_path env w config (.str p) st
    | none =>
        match config.pyContains ("confirmation_file_path") with
        | .error e => (.raised e, st)
        | .ok false =>
            (.ok (), send_telegram_message env st
              (failMsg ("Не указан путь к файлу подтверждения ни в аргументах командной строки, ни в config.json")))
        | .ok true =>
            match config.pySubscript ("confirmation_file_path") with
            | .error e => (.raised e, st)
            | .ok fp => main_after_path env w config fp st
  else
    (.ok (), st)

/-! ## Concrete fixtures used to instantiate the theorems -/

/-- A concrete environment: base host from `BASE_URL`, credentials and
notifier settings present. -/
def env0 : Env :=
  { BASE_URL := some ("https://host"), LOGIN := some ("user"),
    PASSWORD := some ("pw"), BOT_TOKEN := some ("T"),
    BOT_CHAT_ID := some ("C"), BOT_THREAD_ID := none }

/-- The probe request `session.get(BASE_URL)` under `env0`. -/
def probeReq0 : Request := ⟨"GET", "https://host", .session⟩

/-- The authentication request under `env0`. -/
def authReq0 : Request := ⟨"POST", "https://host/auth-ajax_login", .session⟩

/-- The upload request under `env0`. -/
def uplReq0 : Request := ⟨"POST", "https://host/supplier_answer-load_answer_file", .session⟩

/-- The processing request under `env0`. -/
def procReq0 : Request := ⟨"POST", "https://host/supplier_answer-proc_answer_file", .session⟩

/-- The notifier request under `env0`. -/
def tgReq0 : Request := ⟨"POST", "https://api.telegram.org/botT/sendMessage", .notifier⟩

/-- A complete, well-formed config value. -/
def cfg0 : Json := .obj [
  ("base_url", .str ("https://host")),
  ("confirmation_file_path", .str ("/tmp/a.xls")),
  ("order_id_col", .num 1),
  ("quantity_col", .num 5),
  ("order_product_id_col", .num 8)]

/-- Builds a world from the config-file outcome, the file-open outcome,
and the server's responses to the three POST endpoints (any other URL —
the probe and the notifier — gets `dflt`). -/
def mkWorld (cfg : Except String Json) (openRes : Except String Unit)
    (auth upl proc dflt : HttpResult) : World :=
  { configFile := cfg,
    openFile := fun _ => openRes,
    http := fun r =>
      if r.url = "https://host/auth-ajax_login" then auth
      else if r.url = "https://host/supplier_answer-load_answer_file" then upl
      else if r.url = "https://host/supplier_answer-proc_answer_file" then proc
      else dflt }

/-- A successful login response: 2xx, JSON body without `errors`. -/
def okAuthResp : HttpResult := .resp 200 ("") (some (.obj []))

/-- A successful upload response carrying `data.file_name`. -/
def okUplResp : HttpResult :=
  .resp 200 ("") (some (.obj [("data", .obj [("file_name", .str ("F1.xls"))])]))

/-- A successful processing response with `status_code` 0. -/
def okProcResp : HttpResult := .resp 200 ("") (some (.obj [("status_code", .num 0)]))

/-- A plain 200 response with a non-JSON body (used for the probe, whose
body and status are never inspected). -/
def okProbeResp : HttpResult := .resp 200 ("") none

/-- The all-success world. -/
def happyWorld : World :=
  mkWorld (.ok cfg0) (.ok ()) okAuthResp okUplResp okProcResp okProbeResp

/-! ## Spec-side definitions (used by refinement statements) -/

/-- The spec's `ProcessingOutcome`: a discriminated result, `Success`
with the confirmed file label or `Failure` with a message. -/
inductive ProcessingOutcome where
  | success (fileLabel : String)
  | failure (message : String)

/-- Modelled from the spec: the three-way classification rule of §4.5 for
a processing response body — `Success` when the parsed `status_code`
field, compared as text, equals `"0"`; `Failure` with the `err_msg` field
(or the whole parsed body when `err_msg` is absent) when it differs;
`Failure` with the raw response text when the body does not parse as
JSON. -/
def spec_classify (txt : String) (fileLabel : String) : Option Json → ProcessingOutcome
  | none => .failure txt
  | some j =>
      match j with
      | .obj fs =>
          match jlookup fs ("status_code") with
          | some v =>
              if pyStr v == "0" then .success fileLabel
              else .failure (match jlookup fs ("err_msg") with
                | some m => pyStr m
                | none => pyStr (.obj fs))
          | none =>
              .failure (match jlookup fs ("err_msg") with
                | some m => pyStr m
                | none => pyStr (.obj fs))
      | _ => .failure txt

/-- The notification text the pipeline emits for a given outcome. -/
def renderOutcome : ProcessingOutcome → String
  | .success l => okMsg l
  | .failure m => failMsg m

/-- Modelled from the spec: the host-resolution rule of §3/§6 as the claim
states it — the config-file field `base_url`, with the environment
variable `BASE_URL` acting only as an optional override. -/
def spec_resolved_host (config : Json) (env : Env) : Option String :=
  match env.BASE_URL with
  | some b => some b
  | none =>
      match config with
      | .obj fs =>
          match jlookup fs ("base_url") with
          | some (.str b) => some b
          | _ => none
      | _ => none

/-- A world whose authentication endpoint answers `r`; everything else is
well-formed and succeeds. -/
def authWorld (r : HttpResult) : World :=
  mkWorld (.ok cfg0) (.ok ()) r okUplResp okProcResp okProbeResp

/-- The concrete rejected-login body used to instantiate C3. -/
def jErrsW : Json := .obj [("errors", .str ("bad login"))]

/-- A world whose processing endpoint answers `r`; everything else is
well-formed and succeeds. -/
def procWorld (r : HttpResult) : World :=
  mkWorld (.ok cfg0) (.ok ()) okAuthResp okUplResp r okProbeResp

/-- The concrete business-failure body used to instantiate C2. -/
def jProcFailW : Json := .obj [("status_code", .num 1), ("err_msg", .str ("bad column"))]

/-- A world whose upload endpoint answers `r`; everything else is
well-formed and succeeds. -/
def uplWorld (r : HttpResult) : World :=
  mkWorld (.ok cfg0) (.ok ()) okAuthResp r okProcResp okProbeResp

/-- The concrete malformed upload body used to instantiate C7. -/
def jUplMalformedW : Json := .obj [("data", .obj [("other", .num 3)])]

/-- The world whose config file parses to the empty JSON object. -/
def wEmptyCfg : World :=
  mkWorld (.ok (.obj [])) (.ok ()) okAuthResp okUplResp okProcResp okProbeResp

/-- An environment with `BASE_URL` unset. -/
def envNoBase : Env :=
  { BASE_URL := none, LOGIN := some ("user"), PASSWORD := some ("pw"),
    BOT_TOKEN := some ("T"), BOT_CHAT_ID := some ("C"), BOT_THREAD_ID := none }

/-- A world whose probe answers HTTP 500; all endpoints well-formed. -/
def w500 : World :=
  mkWorld (.ok cfg0) (.ok ()) okAuthResp okUplResp okProcResp
    (.resp 500 ("Server Error") none)

/-- A world whose config file is unreadable/unparseable. -/
def wBadCfg : World :=
  mkWorld (.error ("Expecting value: config.json is not JSON")) (.ok ())
    okAuthResp okUplResp okProcResp okProbeResp

/-- A truthy config that supplies the file path but lacks the three
column-mapping keys. -/
def cfgNoCols : Json := .obj [("confirmation_file_path", .str ("/tmp/a.xls"))]

/-- The world whose config file parses to `cfgNoCols`; every remote call
succeeds. -/
def wNoCols : World :=
  mkWorld (.ok cfgNoCols) (.ok ()) okAuthResp okUplResp okProcResp okProbeResp

/-- The four URLs the script can address on the remote host, all built
from the environment's `BASE_URL` value `b`. -/
def sessionUrlsFrom (b : String) : List String :=
  [b, ospath_join b ("auth-ajax_login"),
   ospath_join b ("supplier_answer-load_answer_file"),
   ospath_join b ("supplier_answer-proc_answer_file")]

/-- A request is host-correct for `env` when, if it is a session request,
its URL is one of the four URLs built from `env.BASE_URL`. -/
def ReqFromEnv (env : Env) (r : Request) : Prop :=
  r.kind = .session → ∃ b, env.BASE_URL = some b ∧ r.url ∈ sessionUrlsFrom b

/-- Every request of the list is host-correct for `env`. -/
def ReqsFromEnv (env : Env) (rs : List Request) : Prop :=
  ∀ r ∈ rs, ReqFromEnv env r

example : pymain none env0 happyWorld =
    (.ok (), ⟨[probeReq0, authReq0, uplReq0, procReq0, tgReq0],
      [okMsg ("a.xls")]⟩) := rfl

/-! ## Helper lemmas about single stages -/

/-- Entering the pipeline: with a well-formed config file and no CLI
argument, `main` proceeds to the stages with `cfg0`'s file path. -/
theorem pymain_enters (w : World) (h : w.configFile = .ok cfg0) :
    pymain none env0 w = main_after_path env0 w cfg0 (.str ("/tmp/a.xls")) Trace.empty := by
  simp only [pymain, get_config]
  rw [h]
  rfl

/-- `authorize` on a 2xx JSON response whose `errors` field is truthy:
returns `False` and sends exactly one failure notification carrying the
`errors` value. -/
theorem authorize_rejected (w : World) (st : Trace) (status : Nat) (txt : String)
    (j errs : Json)
    (hw : w.http authReq0 = .resp status txt (some j))
    (hst : status < 400)
    (hget : j.pyGet ("errors") = .ok errs)
    (ht : errs.truthy = true) :
    authorize env0 w st =
      (false, send_telegram_message env0
        { st with requests := st.requests ++ [authReq0] } (failMsg (pyStr errs))) := by
  have hw' : w.http ⟨"POST", ospath_join ("https://host") ("auth-ajax_login"), ReqKind.session⟩
      = .resp status txt (some j) := hw
  unfold authorize
  dsimp only [env0]
  simp only [hw']
  rw [if_neg (Nat.not_le.mpr hst)]
  simp only [hget, ht, if_true]
  rfl

/-- `authorize` on a 2xx response whose body is not JSON: `response.json()`
raises, the exception is caught, one failure notification is sent,
`False` is returned. -/
theorem authorize_nonjson (w : World) (st : Trace) (status : Nat) (txt : String)
    (hw : w.http authReq0 = .resp status txt none)
    (hst : status < 400) :
    authorize env0 w st =
      (false, send_telegram_message env0
        { st with requests := st.requests ++ [authReq0] } (failMsg jsonDecodeErrorText)) := by
  have hw' : w.http ⟨"POST", ospath_join ("https://host") ("auth-ajax_login"), ReqKind.session⟩
      = .resp status txt none := hw
  unfold authorize
  dsimp only [env0]
  simp only [hw']
  rw [if_neg (Nat.not_le.mpr hst)]
  rfl

/-- C3: an authentication response with HTTP 2xx status and a truthy
`errors` field is classified as a rejection: `authorize` returns `False`,
one failure notification carrying the errors value is sent, and the run
ends after the probe, the auth request, and the notifier request — the
upload endpoint is never called. -/
theorem C3_auth_rejected_halts (status : Nat) (txt : String) (j errs : Json)
    (hst : status < 400)
    (hget : j.pyGet ("errors") = .ok errs)
    (ht : errs.truthy = true) :
    (authorize env0 (authWorld (.resp status txt (some j))) ⟨[probeReq0], []⟩).1 = false ∧
    pymain none env0 (authWorld (.resp status txt (some j))) =
      (.ok (), ⟨[probeReq0, authReq0, tgReq0], [failMsg (pyStr errs)]⟩) := by
  have hw : (authWorld (.resp status txt (some j))).http authReq0
      = .resp status txt (some j) := rfl
  have hauth := authorize_rejected _ ⟨[probeReq0], []⟩ status txt j errs hw hst hget ht
  constructor
  · rw [hauth]
  · rw [pymain_enters _ rfl]
    unfold main_after_path
    have hinit : init_session cfg0 env0 (authWorld (.resp status txt (some j))) Trace.empty
        = (some (), ⟨[probeReq0], []⟩) := rfl
    rw [hinit]
    dsimp only
    rw [hauth]
    rfl

theorem C3_witness :
    (authorize env0 (authWorld (.resp 200 ("") (some jErrsW))) ⟨[probeReq0], []⟩).1 = false ∧
    pymain none env0 (authWorld (.resp 200 ("") (some jErrsW))) =
      (.ok (), ⟨[probeReq0, authReq0, tgReq0], [failMsg ("bad login")]⟩) :=
  C3_auth_rejected_halts 200 ("") jErrsW (.str ("bad login")) (by decide) rfl rfl

/-- C10: an authentication response with HTTP 2xx status and a non-JSON
body is never treated as a successful login: `response.json()` raises,
`authorize` returns `False` with one failure notification, and the run
ends before the upload endpoint is ever called. -/
theorem C10_auth_unparseable_halts (status : Nat) (txt : String)
    (hst : status < 400) :
    (authorize env0 (authWorld (.resp status txt none)) ⟨[probeReq0], []⟩).1 = false ∧
    pymain none env0 (authWorld (.resp status txt none)) =
      (.ok (), ⟨[probeReq0, authReq0, tgReq0], [failMsg jsonDecodeErrorText]⟩) := by
  have hw : (authWorld (.resp status txt none)).http authReq0 = .resp status txt none := rfl
  have hauth := authorize_nonjson _ ⟨[probeReq0], []⟩ status txt hw hst
  constructor
  · rw [hauth]
  · rw [pymain_enters _ rfl]
    unfold main_after_path
    have hinit : init_session cfg0 env0 (authWorld (.resp status txt none)) Trace.empty
        = (some (), ⟨[probeReq0], []⟩) := rfl
    rw [hinit]
    dsimp only
    rw [hauth]
    rfl

theorem C10_witness :
    (authorize env0 (authWorld (.resp 200 ("<html>error page</html>") none)) ⟨[probeReq0], []⟩).1 = false ∧
    pymain none env0 (authWorld (.resp 200 ("<html>error page</html>") none)) =
      (.ok (), ⟨[probeReq0, authReq0, tgReq0], [failMsg jsonDecodeErrorText]⟩) :=
  C10_auth_unparseable_halts 200 ("<html>error page</html>") (by decide)

/-- `process_file` under `cfg0` on a response with a non-error status:
the outcome is whatever `process_classify` makes of the body. -/
theorem process_file_resp (w : World) (st : Trace) (status : Nat) (text : String)
    (parsed : Option Json) (fn fp : Json)
    (hw : w.http procReq0 = .resp status text parsed)
    (hst : status < 400) :
    process_file env0 w st cfg0 fn fp =
      (.ok (), process_classify env0
        { st with requests := st.requests ++ [procReq0] } text parsed fp) := by
  have hw' : w.http ⟨"POST", ospath_join ("https://host") ("supplier_answer-proc_answer_file"),
      ReqKind.session⟩ = .resp status text parsed := hw
  have h1 : cfg0.pySubscript ("order_id_col") = Except.ok (.num 1) := rfl
  have h2 : cfg0.pySubscript ("quantity_col") = Except.ok (.num 5) := rfl
  have h3 : cfg0.pySubscript ("order_product_id_col") = Except.ok (.num 8) := rfl
  unfold process_file
  dsimp only [env0]
  simp only [h1, h2, h3, hw']
  rw [if_neg (Nat.not_le.mpr hst)]
  rfl

/-- C2: for every 2xx processing response whose body is a JSON object or
is not JSON at all, the emitted notification is exactly the rendering of
the spec's three-way classification (`spec_classify`): success when
`status_code` as text equals `"0"`, failure with `err_msg` (or the whole
parsed body when `err_msg` is absent) when it differs, failure with the
raw response text when the body does not parse. -/
theorem C2_three_way_classification (status : Nat) (txt : String) (parsed : Option Json)
    (hst : status < 400)
    (hshape : parsed = none ∨ ∃ fs, parsed = some (.obj fs)) :
    (process_file env0 (procWorld (.resp status txt parsed)) Trace.empty cfg0
        (.str ("F1.xls")) (.str ("/tmp/a.xls"))).2.notifications
      = [renderOutcome (spec_classify txt ("a.xls") parsed)] := by
  have hw : (procWorld (.resp status txt parsed)).http procReq0 = .resp status txt parsed := rfl
  rw [process_file_resp _ _ _ _ _ _ _ hw hst]
  have hb : basename ("/tmp/a.xls") = "a.xls" := rfl
  rcases hshape with rfl | ⟨fs, rfl⟩
  · rfl
  · cases hsc : jlookup fs ("status_code") with
    | none =>
        cases hem : jlookup fs ("err_msg") <;>
          simp [process_classify, spec_classify, Json.pyGet, Json.pyGetD, hsc, hem,
            send_telegram_message, renderOutcome, pyStr, Trace.empty]
    | some v =>
        cases h0 : (pyStr v == "0") with
        | true =>
            simp [process_classify, spec_classify, Json.pyGet, hsc, h0, hb,
              send_telegram_message, renderOutcome, Trace.empty]
        | false =>
            cases hem : jlookup fs ("err_msg") <;>
              simp [process_classify, spec_classify, Json.pyGet, Json.pyGetD, hsc, hem, h0,
                send_telegram_message, renderOutcome, Trace.empty]

theorem C2_witness :
    (process_file env0 (procWorld (.resp 200 ("") (some jProcFailW))) Trace.empty cfg0
        (.str ("F1.xls")) (.str ("/tmp/a.xls"))).2.notifications
      = [failMsg ("bad column")] :=
  C2_three_way_classification 200 ("") (some jProcFailW) (by decide)
    (Or.inr ⟨[("status_code", Json.num 1), ("err_msg", Json.str ("bad column"))], rfl⟩)

/-- `upload_file` on a 2xx JSON response lacking `data.file_name`: the
`KeyError`/`TypeError` is caught, one failure notification is sent, and
`None` is returned. -/
theorem upload_file_malformed (w : World) (st : Trace) (status : Nat) (txt : String)
    (j : Json) (e : String) (fp : Json)
    (hopen : w.openFile fp = .ok ())
    (hw : w.http uplReq0 = .resp status txt (some j))
    (hst : status < 400)
    (htok : upload_token j = .error e) :
    upload_file env0 w st cfg0 fp =
      (.ok none, send_telegram_message env0
        { st with requests := st.requests ++ [uplReq0] } (failMsg e)) := by
  have hw' : w.http ⟨"POST", ospath_join ("https://host") ("supplier_answer-load_answer_file"),
      ReqKind.session⟩ = .resp status txt (some j) := hw
  unfold upload_file
  dsimp only [env0]
  simp only [hopen, hw']
  rw [if_neg (Nat.not_le.mpr hst)]
  simp only [htok]
  rfl

/-- C7: an upload response whose JSON body lacks the nested field
`data.file_name` makes `upload_file` fail with one failure notification;
`main` then halts — the run's requests are exactly the probe, the auth
POST, the upload POST and the notifier POST, and the processing endpoint
is never called. -/
theorem C7_upload_missing_token_halts (status : Nat) (txt : String) (j : Json) (e : String)
    (hst : status < 400)
    (htok : upload_token j = .error e) :
    pymain none env0 (uplWorld (.resp status txt (some j))) =
      (.ok (), ⟨[probeReq0, authReq0, uplReq0, tgReq0], [failMsg e]⟩) ∧
    procReq0 ∉ (pymain none env0 (uplWorld (.resp status txt (some j)))).2.requests := by
  have hw : (uplWorld (.resp status txt (some j))).http uplReq0 = .resp status txt (some j) := rfl
  have hopen : (uplWorld (.resp status txt (some j))).openFile (.str ("/tmp/a.xls")) = .ok () := rfl
  have hupl := upload_file_malformed _ ⟨[probeReq0, authReq0], []⟩ status txt j e
    (.str ("/tmp/a.xls")) hopen hw hst htok
  have h1 : pymain none env0 (uplWorld (.resp status txt (some j))) =
      (.ok (), ⟨[probeReq0, authReq0, uplReq0, tgReq0], [failMsg e]⟩) := by
    rw [pymain_enters _ rfl]
    unfold main_after_path
    have hinit : init_session cfg0 env0 (uplWorld (.resp status txt (some j))) Trace.empty
        = (some (), ⟨[probeReq0], []⟩) := rfl
    rw [hinit]
    dsimp only
    have hauth : authorize env0 (uplWorld (.resp status txt (some j))) ⟨[probeReq0], []⟩
        = (true, ⟨[probeReq0, authReq0], []⟩) := rfl
    rw [hauth]
    dsimp only
    rw [hupl]
    rfl
  refine ⟨h1, ?_⟩
  rw [h1]
  show procReq0 ∉ [probeReq0, authReq0, uplReq0, tgReq0]
  decide

theorem C7_witness :
    pymain none env0 (uplWorld (.resp 200 ("") (some jUplMalformedW))) =
      (.ok (), ⟨[probeReq0, authReq0, uplReq0, tgReq0], [failMsg (keyErrorText ("file_name"))]⟩) ∧
    procReq0 ∉ (pymain none env0 (uplWorld (.resp 200 ("") (some jUplMalformedW)))).2.requests :=
  C7_upload_missing_token_halts 200 ("") jUplMalformedW (keyErrorText ("file_name"))
    (by decide) rfl

/-- C1 (code bug): when the config file parses to the falsy value `{}`,
`get_config` succeeds but `main`'s `if not config: return` exits silently:
the run sends ZERO terminal notifications, contradicting the
exactly-one-notification invariant the spec states. -/
theorem C1_empty_config_zero_notifications :
    (pymain none env0 wEmptyCfg).2.notifications = [] := rfl

/-- C9 (code bug): with no CLI argument and a config (`{}`) that supplies
no `confirmation_file_path`, the pipeline does halt before opening a
session (no request of any kind is attempted), but it emits ZERO failure
notifications instead of the one the claim requires. -/
theorem C9_empty_config_silent_halt :
    pymain none env0 wEmptyCfg = (.ok (), ⟨[], []⟩) := rfl

/-- C4 counterexample: with `BASE_URL` unset and a config whose
`base_url` is `"https://host"`, the claim's resolution rule
(`spec_resolved_host`) says the probe should target `"https://host"`, but
the run performs NO session request at all: `session.get(None)` raises,
`init_session` fails, and the only HTTP attempt is the failure
notification.  The config-file `base_url` is never consulted. -/
theorem C4_counterexample :
    spec_resolved_host cfg0 envNoBase = some ("https://host") ∧
    pymain none envNoBase happyWorld =
      (.ok (), ⟨[⟨"POST", "https://api.telegram.org/botT/sendMessage", .notifier⟩],
        [failMsg missingSchemaText]⟩) ∧
    (pymain none envNoBase happyWorld).2.requests.all
      (fun r => r.kind == ReqKind.notifier) = true :=
  ⟨rfl, rfl, rfl⟩

/-- C5 counterexample: the reachability probe answers HTTP 500, a
non-success status — yet `init_session` succeeds (returns a session, sends
no failure notification), because the probe's status is never checked. -/
theorem C5_counterexample :
    (init_session cfg0 env0 w500 Trace.empty).1 = some () ∧
    (init_session cfg0 env0 w500 Trace.empty).2.notifications = [] :=
  ⟨rfl, rfl⟩

/-- C5 amended: `init_session` fails exactly on a missing `BASE_URL` or a
transport-level failure of the probe; ANY HTTP response — regardless of
status — yields a session. -/
theorem C5_amended_no_status_check (c : Json) (env : Env) (w : World) (st : Trace) :
    (env.BASE_URL = none →
      init_session c env w st =
        (none, send_telegram_message env st (failMsg missingSchemaText))) ∧
    (∀ b e, env.BASE_URL = some b → w.http ⟨"GET", b, .session⟩ = .netErr e →
      init_session c env w st =
        (none, send_telegram_message env
          { st with requests := st.requests ++ [⟨"GET", b, .session⟩] } (failMsg e))) ∧
    (∀ b status text parsed, env.BASE_URL = some b →
      w.http ⟨"GET", b, .session⟩ = .resp status text parsed →
      (init_session c env w st).1 = some ()) := by
  refine ⟨?_, ?_, ?_⟩
  · intro h
    unfold init_session
    rw [h]
  · intro b e hb hw
    unfold init_session
    rw [hb]
    dsimp only
    rw [hw]
  · intro b status text parsed hb hw
    unfold init_session
    rw [hb]
    dsimp only
    rw [hw]

theorem C5_witness :
    (init_session cfg0 env0 w500 Trace.empty).1 = some () :=
  (C5_amended_no_status_check cfg0 env0 w500 Trace.empty).2.2
    ("https://host") 500 ("Server Error") none rfl rfl

/-- C6 counterexample: when the config file is unparseable, the run still
performs one HTTP request — the notifier POST carrying the failure
notification — so it is not true that no network call of any kind
occurs. -/
theorem C6_counterexample :
    pymain none env0 wBadCfg =
      (.ok (), ⟨[tgReq0], [failMsg ("Expecting value: config.json is not JSON")]⟩) ∧
    (pymain none env0 wBadCfg).2.requests ≠ [] :=
  ⟨rfl, by decide⟩

/-- C6 amended: when the config file is absent or unparseable, no request
to the remote host occurs — the run's only HTTP activity is the single
notifier POST of the failure notification, and the pipeline terminates. -/
theorem C6_amended_only_notifier_call (args : Option String) (env : Env) (w : World)
    (e : String) (h : w.configFile = .error e) :
    pymain args env w =
      (.ok (), ⟨[⟨"POST", telegramUrl env, .notifier⟩], [failMsg e]⟩) := by
  unfold pymain get_config
  rw [h]
  rfl

theorem C6_witness :
    pymain none env0 wBadCfg =
      (.ok (), ⟨[⟨"POST", telegramUrl env0, .notifier⟩],
        [failMsg ("Expecting value: config.json is not JSON")]⟩) :=
  C6_amended_only_notifier_call none env0 wBadCfg
    ("Expecting value: config.json is not JSON") rfl

/-- C8 counterexample: with a config lacking `order_id_col`, the run
reaches `process_file`, whose `proc_data` construction sits BEFORE its
`try` block — the `KeyError` propagates uncaught through `main`, so the
orchestrator does observe a raised low-level fault. -/
theorem C8_counterexample :
    (pymain none env0 wNoCols).1 = .raised (keyErrorText ("order_id_col")) := rfl

/-- C8 amended: every fault raised inside a stage's `try` block is caught
and turned into a sentinel value — given a set `BASE_URL`, `upload_file`
always returns normally, and `process_file` returns normally whenever the
config carries the three column-mapping keys (the code before the `try`
blocks — URL construction and `proc_data` construction — is the only
uncaught-raise surface). -/
theorem C8_amended_try_blocks (env : Env) (w : World) (st : Trace) (c fn fp : Json)
    (b : String) (hb : env.BASE_URL = some b)
    (h1 : ∃ v, c.pySubscript ("order_id_col") = .ok v)
    (h2 : ∃ v, c.pySubscript ("quantity_col") = .ok v)
    (h3 : ∃ v, c.pySubscript ("order_product_id_col") = .ok v) :
    (∃ v, (upload_file env w st c fp).1 = .ok v) ∧
    (process_file env w st c fn fp).1 = .ok () := by
  constructor
  · unfold upload_file
    rw [hb]
    dsimp only
    cases w.openFile fp with
    | error e => exact ⟨none, rfl⟩
    | ok u =>
        cases u
        dsimp only
        cases w.http ⟨"POST", ospath_join b ("supplier_answer-load_answer_file"), .session⟩ with
        | netErr e => exact ⟨none, rfl⟩
        | resp status text parsed =>
            dsimp only
            by_cases hs : 400 ≤ status
            · rw [if_pos hs]; exact ⟨none, rfl⟩
            · rw [if_neg hs]
              cases parsed with
              | none => exact ⟨none, rfl⟩
              | some j =>
                  dsimp only
                  cases htok : upload_token j with
                  | error e => exact ⟨none, rfl⟩
                  | ok v => exact ⟨some v, rfl⟩
  · obtain ⟨v1, e1⟩ := h1
    obtain ⟨v2, e2⟩ := h2
    obtain ⟨v3, e3⟩ := h3
    unfold process_file
    rw [hb]
    dsimp only
    rw [e1, e2, e3]
    dsimp only
    cases w.http ⟨"POST", ospath_join b ("supplier_answer-proc_answer_file"), .session⟩ with
    | netErr e => rfl
    | resp status text parsed =>
        dsimp only
        by_cases hs : 400 ≤ status
        · rw [if_pos hs]
        · rw [if_neg hs]

theorem C8_witness :
    (∃ v, (upload_file env0 happyWorld Trace.empty cfg0 (.str ("/tmp/a.xls"))).1 = .ok v) ∧
    (process_file env0 happyWorld Trace.empty cfg0 (.str ("F1.xls")) (.str ("/tmp/a.xls"))).1
      = .ok () :=
  C8_amended_try_blocks env0 happyWorld Trace.empty cfg0 (.str ("F1.xls"))
    (.str ("/tmp/a.xls")) ("https://host") rfl ⟨.num 1, rfl⟩ ⟨.num 5, rfl⟩ ⟨.num 8, rfl⟩

theorem reqsFromEnv_append (env : Env) (rs : List Request) (r : Request)
    (h : ReqsFromEnv env rs) (hr : ReqFromEnv env r) :
    ReqsFromEnv env (rs ++ [r]) := by
  intro x hx
  rcases List.mem_append.mp hx with hx | hx
  · exact h x hx
  · rw [List.mem_singleton] at hx
    subst hx
    exact hr

theorem reqs_send (env env' : Env) (st : Trace) (m : String)
    (h : ReqsFromEnv env st.requests) :
    ReqsFromEnv env (send_telegram_message env' st m).requests := by
  unfold send_telegram_message
  exact reqsFromEnv_append env st.requests _ h (fun hk => ReqKind.noConfusion hk)

theorem get_config_reqs (env : Env) (w : World) (st : Trace)
    (h : ReqsFromEnv env st.requests) :
    ReqsFromEnv env (get_config env w st).2.requests := by
  unfold get_config
  cases w.configFile with
  | ok c => exact h
  | error e => exact reqs_send env env st _ h

theorem init_session_reqs (c : Json) (env : Env) (w : World) (st : Trace)
    (h : ReqsFromEnv env st.requests) :
    ReqsFromEnv env (init_session c env w st).2.requests := by
  unfold init_session
  cases henv : env.BASE_URL with
  | none => exact reqs_send env env st _ h
  | some b =>
      dsimp only
      have h1 : ReqsFromEnv env (st.requests ++ [⟨"GET", b, .session⟩]) :=
        reqsFromEnv_append env st.requests _ h
          (fun _ => ⟨b, henv, by simp [sessionUrlsFrom]⟩)
      cases w.http ⟨"GET", b, .session⟩ with
      | netErr e => exact reqs_send env env _ _ h1
      | resp s t p => exact h1

theorem authorize_reqs (env : Env) (w : World) (st : Trace)
    (h : ReqsFromEnv env st.requests) :
    ReqsFromEnv env (authorize env w st).2.requests := by
  unfold authorize
  cases henv : env.BASE_URL with
  | none => exact reqs_send env env st _ h
  | some b =>
      dsimp only
      have h1 : ReqsFromEnv env
          (st.requests ++ [⟨"POST", ospath_join b ("auth-ajax_login"), .session⟩]) :=
        reqsFromEnv_append env st.requests _ h
          (fun _ => ⟨b, henv, by simp [sessionUrlsFrom]⟩)
      cases w.http ⟨"POST", ospath_join b ("auth-ajax_login"), .session⟩ with
      | netErr e => exact reqs_send env env _ _ h1
      | resp status text parsed =>
          dsimp only
          by_cases hs : 400 ≤ status
          · rw [if_pos hs]; exact reqs_send env env _ _ h1
          · rw [if_neg hs]
            cases parsed with
            | none => exact reqs_send env env _ _ h1
            | some j =>
                dsimp only
                cases j.pyGet ("errors") with
                | error e => exact reqs_send env env _ _ h1
                | ok errs =>
                    dsimp only
                    by_cases ht : errs.truthy = true
                    · rw [if_pos ht]; exact reqs_send env env _ _ h1
                    · rw [if_neg ht]; exact h1

theorem upload_file_reqs (env : Env) (w : World) (st : Trace) (c fp : Json)
    (h : ReqsFromEnv env st.requests) :
    ReqsFromEnv env (upload_file env w st c fp).2.requests := by
  unfold upload_file
  cases henv : env.BASE_URL with
  | none => exact h
  | some b =>
      dsimp only
      cases w.openFile fp with
      | error e => exact reqs_send env env st _ h
      | ok u =>
          cases u
          dsimp only
          have h1 : ReqsFromEnv env (st.requests ++
              [⟨"POST", ospath_join b ("supplier_answer-load_answer_file"), .session⟩]) :=
            reqsFromEnv_append env st.requests _ h
              (fun _ => ⟨b, henv, by simp [sessionUrlsFrom]⟩)
          cases w.http ⟨"POST", ospath_join b ("supplier_answer-load_answer_file"), .session⟩ with
          | netErr e => exact reqs_send env env _ _ h1
          | resp status text parsed =>
              dsimp only
              by_cases hs : 400 ≤ status
              · rw [if_pos hs]; exact reqs_send env env _ _ h1
              · rw [if_neg hs]
                cases parsed with
                | none => exact reqs_send env env _ _ h1
                | some j =>
                    dsimp only
                    cases upload_token j with
                    | error e => exact reqs_send env env _ _ h1
                    | ok v => exact h1

theorem process_classify_reqs (env : Env) (st : Trace) (text : String)
    (parsed : Option Json) (fp : Json)
    (h : ReqsFromEnv env st.requests) :
    ReqsFromEnv env (process_classify env st text parsed fp).requests := by
  unfold process_classify
  cases parsed with
  | none => exact reqs_send env env st _ h
  | some j =>
      dsimp only
      cases j.pyGet ("status_code") with
      | error e => exact reqs_send env env st _ h
      | ok sc =>
          dsimp only
          by_cases h0 : (pyStr sc == "0") = true
          · rw [if_pos h0]
            cases fp <;> exact reqs_send env env st _ h
          · rw [if_neg h0]
            cases j.pyGetD ("err_msg") j with
            | error e => exact reqs_send env env st _ h
            | ok m => exact reqs_send env env st _ h

theorem process_file_reqs (env : Env) (w : World) (st : Trace) (c fn fp : Json)
    (h : ReqsFromEnv env st.requests) :
    ReqsFromEnv env (process_file env w st c fn fp).2.requests := by
  unfold process_file
  cases henv : env.BASE_URL with
  | none => exact h
  | some b =>
      dsimp only
      cases c.pySubscript ("order_id_col") with
      | error e => exact h
      | ok v1 =>
      dsimp only
      cases c.pySubscript ("quantity_col") with
      | error e => exact h
      | ok v2 =>
      dsimp only
      cases c.pySubscript ("order_product_id_col") with
      | error e => exact h
      | ok v3 =>
      dsimp only
      have h1 : ReqsFromEnv env (st.requests ++
          [⟨"POST", ospath_join b ("supplier_answer-proc_answer_file"), .session⟩]) :=
        reqsFromEnv_append env st.requests _ h
          (fun _ => ⟨b, henv, by simp [sessionUrlsFrom]⟩)
      cases w.http ⟨"POST", ospath_join b ("supplier_answer-proc_answer_file"), .session⟩ with
      | netErr e => exact reqs_send env env _ _ h1
      | resp status text parsed =>
          dsimp only
          by_cases hs : 400 ≤ status
          · rw [if_pos hs]; exact reqs_send env env _ _ h1
          · rw [if_neg hs]
            exact process_classify_reqs env _ text parsed fp h1

theorem main_after_path_reqs (env : Env) (w : World) (c fp : Json) (st : Trace)
    (h : ReqsFromEnv env st.requests) :
    ReqsFromEnv env (main_after_path env w c fp st).2.requests := by
  unfold main_after_path
  have hi := init_session_reqs c env w st h
  rcases hI : init_session c env w st with ⟨so, st1⟩
  rw [hI] at hi
  cases so with
  | none => exact hi
  | some u =>
      dsimp only
      have ha := authorize_reqs env w st1 hi
      rcases hA : authorize env w st1 with ⟨ab, st2⟩
      rw [hA] at ha
      cases ab with
      | false => exact ha
      | true =>
          dsimp only
          have hu := upload_file_reqs env w st2 c fp ha
          rcases hU : upload_file env w st2 c fp with ⟨ur, st3⟩
          rw [hU] at hu
          cases ur with
          | raised e => exact hu
          | ok o =>
              cases o with
              | none => exact hu
              | some fname =>
                  dsimp only
                  by_cases ht : fname.truthy = true
                  · rw [if_pos ht]
                    exact process_file_reqs env w st3 c fname fp hu
                  · rw [if_neg ht]
                    exact hu

/-- C4 amended: the remote host is taken solely from the environment
variable `BASE_URL`.  `init_session` ignores its config argument
entirely, and every session request any run of `main` ever attempts has a
URL built from `env.BASE_URL` — the config-file field `base_url` plays no
role (and with `BASE_URL` unset, no session request is possible at
all). -/
theorem C4_amended_host_from_env (args : Option String) (env : Env) (w : World) :
    (∀ c₁ c₂ st, init_session c₁ env w st = init_session c₂ env w st) ∧
    ∀ r ∈ (pymain args env w).2.requests, ReqFromEnv env r := by
  refine ⟨fun c₁ c₂ st => rfl, ?_⟩
  have h0 : ReqsFromEnv env (Trace.empty).requests := by
    intro r hr
    exact absurd hr (List.not_mem_nil r)
  unfold pymain
  dsimp only
  have hg := get_config_reqs env w Trace.empty h0
  rcases hG : get_config env w Trace.empty with ⟨co, st1⟩
  rw [hG] at hg
  cases co with
  | none => exact hg
  | some config =>
      dsimp only
      by_cases htr : config.truthy = true
      · rw [if_pos htr]
        cases args with
        | some p => exact main_after_path_reqs env w config (.str p) st1 hg
        | none =>
            dsimp only
            cases config.pyContains ("confirmation_file_path") with
            | error e => exact hg
            | ok bb =>
                cases bb with
                | false => exact reqs_send env env st1 _ hg
                | true =>
                    dsimp only
                    cases config.pySubscript ("confirmation_file_path") with
                    | error e => exact hg
                    | ok fp => exact main_after_path_reqs env w config fp st1 hg
      · rw [if_neg htr]
        exact hg

theorem C4_witness :
    probeReq0 ∈ (pymain none env0 happyWorld).2.requests ∧
    probeReq0.url ∈ sessionUrlsFrom ("https://host") := by
  have hmem : probeReq0 ∈ (pymain none env0 happyWorld).2.requests := by decide
  have h := (C4_amended_host_from_env none env0 happyWorld).2 probeReq0 hmem rfl
  obtain ⟨b, hb, hm⟩ := h
  simp only [env0, Option.some.injEq] at hb
  subst hb
  exact ⟨hmem, hm⟩
